import Mathlib

/-!
Verification of the `AscResult` aggregator (`src/compose/asc-result.c`) from
the appstream-compose library.

The C object is shallowly embedded as follows:
* C strings (`gchar*`) are byte lists `List Nat`; `NULL` and `""` are both
  modelled by `[]`, matching `as_is_empty` which treats them alike.
* `GHashTable`s are association lists with GHashTable semantics:
  `g_hash_table_insert` replaces an existing key, `g_hash_table_remove`
  returns whether the key was present, `g_hash_table_size` is the number of
  entries.
* `AsComponent` objects are mutable records identified by an abstract
  pointer (`Ptr := Nat`); each operation takes the pointer (used as the
  `mdata_hashes` key, which hashes by object identity) together with the
  component's current field state, and returns the mutated state.
* `g_compute_checksum_for_string (G_CHECKSUM_MD5, data, -1)` is a concrete
  MD5 implementation producing the lowercase-hex digest as a byte list.
-/

set_option maxRecDepth 100000

/-- Key-value association list lookup (models `g_hash_table_lookup`). -/
def alistLookup {κ α : Type} [DecidableEq κ] (m : List (κ × α)) (k : κ) : Option α :=
  match m with
  | [] => none
  | (k', v) :: rest => if k' = k then some v else alistLookup rest k

/-- Key membership (models `g_hash_table_contains`). -/
def alistContains {κ α : Type} [DecidableEq κ] (m : List (κ × α)) (k : κ) : Bool :=
  match m with
  | [] => false
  | (k', _) :: rest => if k' = k then true else alistContains rest k

/-- Insert-or-replace (models `g_hash_table_insert`): an existing entry for
the key is replaced in place, otherwise the entry is appended. -/
def alistInsert {κ α : Type} [DecidableEq κ] (m : List (κ × α)) (k : κ) (v : α) :
    List (κ × α) :=
  match m with
  | [] => [(k, v)]
  | (k', v') :: rest =>
      if k' = k then (k, v) :: rest else (k', v') :: alistInsert rest k v

/-- Removal of the entry for a key, if any (models `g_hash_table_remove`
on a table whose keys are unique). -/
def alistRemove {κ α : Type} [DecidableEq κ] (m : List (κ × α)) (k : κ) :
    List (κ × α) :=
  match m with
  | [] => []
  | (k', v') :: rest =>
      if k' = k then rest else (k', v') :: alistRemove rest k

/-! ## MD5 (the digest used by `g_compute_checksum_for_string` with
`G_CHECKSUM_MD5`), over byte lists, 32-bit words as `Nat` reduced mod 2^32. -/

/-- Reduce modulo 2^32. -/
def m32 (x : Nat) : Nat := x % 4294967296

/-- 32-bit addition. -/
def add32 (a b : Nat) : Nat := m32 (a + b)

/-- 32-bit bitwise complement. -/
def not32 (x : Nat) : Nat := Nat.xor x 4294967295

/-- 32-bit left rotation by `n` (for `x < 2^32`, `0 < n < 32`). -/
def rotl32 (x n : Nat) : Nat :=
  Nat.lor (m32 (Nat.shiftLeft x n)) (Nat.shiftRight x (32 - n))

/-- The MD5 per-round constants `K[i] = floor(2^32 * |sin(i+1)|)`. -/
def md5K : List Nat :=
  [0xd76aa478, 0xe8c7b756, 0x242070db, 0xc1bdceee,
   0xf57c0faf, 0x4787c62a, 0xa8304613, 0xfd469501,
   0x698098d8, 0x8b44f7af, 0xffff5bb1, 0x895cd7be,
   0x6b901122, 0xfd987193, 0xa679438e, 0x49b40821,
   0xf61e2562, 0xc040b340, 0x265e5a51, 0xe9b6c7aa,
   0xd62f105d, 0x02441453, 0xd8a1e681, 0xe7d3fbc8,
   0x21e1cde6, 0xc33707d6, 0xf4d50d87, 0x455a14ed,
   0xa9e3e905, 0xfcefa3f8, 0x676f02d9, 0x8d2a4c8a,
   0xfffa3942, 0x8771f681, 0x6d9d6122, 0xfde5380c,
   0xa4beea44, 0x4bdecfa9, 0xf6bb4b60, 0xbebfbc70,
   0x289b7ec6, 0xeaa127fa, 0xd4ef3085, 0x04881d05,
   0xd9d4d039, 0xe6db99e5, 0x1fa27cf8, 0xc4ac5665,
   0xf4292244, 0x432aff97, 0xab9423a7, 0xfc93a039,
   0x655b59c3, 0x8f0ccc92, 0xffeff47d, 0x85845dd1,
   0x6fa87e4f, 0xfe2ce6e0, 0xa3014314, 0x4e0811a1,
   0xf7537e82, 0xbd3af235, 0x2ad7d2bb, 0xeb86d391]

/-- The MD5 per-round left-rotation amounts. -/
def md5S : List Nat :=
  [7, 12, 17, 22, 7, 12, 17, 22, 7, 12, 17, 22, 7, 12, 17, 22,
   5,  9, 14, 20, 5,  9, 14, 20, 5,  9, 14, 20, 5,  9, 14, 20,
   4, 11, 16, 23, 4, 11, 16, 23, 4, 11, 16, 23, 4, 11, 16, 23,
   6, 10, 15, 21, 6, 10, 15, 21, 6, 10, 15, 21, 6, 10, 15, 21]

/-- Byte at index `i` in a byte list (0 past the end). -/
def byteAt (bs : List Nat) (i : Nat) : Nat := (bs.drop i).headD 0

/-- The `j`-th little-endian 32-bit word of a 64-byte block. -/
def leWord (bs : List Nat) (j : Nat) : Nat :=
  byteAt bs (4 * j) + 256 * byteAt bs (4 * j + 1) +
    65536 * byteAt bs (4 * j + 2) + 16777216 * byteAt bs (4 * j + 3)

/-- One MD5 round (round index `i` from 0 to 63) on state `(a, b, c, d)`. -/
def md5Round (block : List Nat) (st : Nat × Nat × Nat × Nat) (i : Nat) :
    Nat × Nat × Nat × Nat :=
  let a := st.1
  let b := st.2.1
  let c := st.2.2.1
  let d := st.2.2.2
  let fg : Nat × Nat :=
    if i < 16 then (Nat.lor (Nat.land b c) (Nat.land (not32 b) d), i)
    else if i < 32 then (Nat.lor (Nat.land d b) (Nat.land (not32 d) c), (5 * i + 1) % 16)
    else if i < 48 then (Nat.xor b (Nat.xor c d), (3 * i + 5) % 16)
    else (Nat.xor c (Nat.lor b (not32 d)), (7 * i) % 16)
  let tmp := add32 (add32 (add32 a fg.1) (md5K.getD i 0)) (leWord block fg.2)
  (d, add32 b (rotl32 tmp (md5S.getD i 0)), b, c)

/-- Process one 64-byte block. -/
def md5Block (st : Nat × Nat × Nat × Nat) (block : List Nat) :
    Nat × Nat × Nat × Nat :=
  let r := (List.range 64).foldl (md5Round block) st
  (add32 st.1 r.1, add32 st.2.1 r.2.1, add32 st.2.2.1 r.2.2.1, add32 st.2.2.2 r.2.2.2)

/-- Process a padded message, 64 bytes at a time, for the given number of
blocks (structural recursion on the block count so that the kernel can
evaluate digests). -/
def md5Chunks (st : Nat × Nat × Nat × Nat) (msg : List Nat) :
    Nat → Nat × Nat × Nat × Nat
  | 0 => st
  | Nat.succ n => md5Chunks (md5Block st (msg.take 64)) (msg.drop 64) n

/-- MD5 padding: append `0x80`, zeros to 56 mod 64, then the bit length as
eight little-endian bytes. -/
def md5Pad (msg : List Nat) : List Nat :=
  let len := msg.length
  let zeros := (120 - (len + 1) % 64) % 64
  msg ++ [128] ++ List.replicate zeros 0 ++
    (List.range 8).map (fun i => 8 * len / 256 ^ i % 256)

/-- The four little-endian bytes of a 32-bit word. -/
def wordLeBytes (w : Nat) : List Nat :=
  [w % 256, w / 256 % 256, w / 65536 % 256, w / 16777216 % 256]

/-- ASCII code of the lowercase hex digit for `n < 16`. -/
def hexDigit (n : Nat) : Nat := if n < 10 then 48 + n else 87 + n

/-- The two lowercase-hex ASCII codes of a byte. -/
def byteHex (b : Nat) : List Nat := [hexDigit (b / 16), hexDigit (b % 16)]

/-- MD5 digest of a byte list, as the byte list of its lowercase-hex
rendering — exactly what `g_compute_checksum_for_string` returns. -/
def md5hex (msg : List Nat) : List Nat :=
  let p := md5Pad msg
  let r := md5Chunks (0x67452301, 0xefcdab89, 0x98badcfe, 0x10325476) p (p.length / 64)
  ((wordLeBytes r.1 ++ wordLeBytes r.2.1 ++ wordLeBytes r.2.2.1 ++
    wordLeBytes r.2.2.2).map byteHex).flatten

/-- ASCII codes of a Lean string literal, for readable byte-list constants. -/
def strBytes (s : String) : List Nat := s.data.map Char.toNat

/-! ## Data model -/

/-- C strings (and the `NULL` pointer) as byte lists; `[]` models both
`NULL` and the empty string, which `as_is_empty` treats alike. -/
abbrev CStr := List Nat

/-- Object identity of an `AsComponent` (`mdata_hashes` is keyed with
`g_direct_hash`, i.e. by pointer). -/
abbrev Ptr := Nat

/-- `as_is_empty (str)`: true for `NULL` or `""`. -/
def as_is_empty (s : CStr) : Bool := s.isEmpty

/-- Modelled from the spec: the bundle-kind enumeration
(`AsBundleKind`, declared in a header outside these sources) is an ordinal
enum `{unknown, package, flatpak, snap, cabinet, ...}` with `unknown = 0`,
`package` next, the concrete kinds after it, and an upper sentinel
`AS_BUNDLE_KIND_LAST` ("kind count"). The field holding it is a plain
machine integer, so it is modelled as `Nat`. -/
def AS_BUNDLE_KIND_UNKNOWN : Nat := 0

/-- The `package` bundle kind (see `AS_BUNDLE_KIND_UNKNOWN`). -/
def AS_BUNDLE_KIND_PACKAGE : Nat := 1

/-- A concrete non-package bundle kind (see `AS_BUNDLE_KIND_UNKNOWN`). -/
def AS_BUNDLE_KIND_FLATPAK : Nat := 2

/-- A concrete non-package bundle kind (see `AS_BUNDLE_KIND_UNKNOWN`). -/
def AS_BUNDLE_KIND_SNAP : Nat := 3

/-- A concrete non-package bundle kind (see `AS_BUNDLE_KIND_UNKNOWN`). -/
def AS_BUNDLE_KIND_CABINET : Nat := 4

/-- The upper sentinel "kind count" value (see `AS_BUNDLE_KIND_UNKNOWN`). -/
def AS_BUNDLE_KIND_LAST : Nat := 5

/-- The component kinds distinguished by `asc_result_add_component`:
`web-application`, `operating-system`, and everything else treated
uniformly (represented by `generic`, `desktopApp`, `addon`). -/
inductive AsComponentKind where
  | generic
  | desktopApp
  | addon
  | webApp
  | operatingSystem
deriving DecidableEq, Repr

/-- Merge kinds; only `removeComponent` is distinguished by the code. -/
inductive AsMergeKind where
  | noMerge
  | replace
  | removeComponent
deriving DecidableEq, Repr

/-- Modelled from the spec: `asc_build_component_global_id` (defined in
`asc-utils.c`, outside these sources) is an external GCID builder taking
the local id and an optional digest string; its output format is opaque,
so it is modelled as the injective pairing of its two arguments. -/
structure GlobalId where
  cid : CStr
  hash : Option CStr
deriving DecidableEq, Repr

/-- Modelled from the spec: the builder described above. -/
def asc_build_component_global_id (cid : CStr) (hash : Option CStr) : GlobalId :=
  ⟨cid, hash⟩

/-- `AsBundle`: a bundle descriptor built from a kind and an id
(`as_bundle_new` + `as_bundle_set_kind` + `as_bundle_set_id`). -/
structure AsBundle where
  kind : Nat
  id : Option CStr
deriving DecidableEq, Repr

/-- The mutable `AsComponent` field state read and written by the code
under verification: local id, kind, merge kind, assigned data-id (GCID),
package-name list and bundle list. -/
structure AsComponent where
  id : CStr
  kind : AsComponentKind
  merge_kind : AsMergeKind
  data_id : Option GlobalId
  pkgnames : List CStr
  bundles : List AsBundle
deriving DecidableEq, Repr

/-- `as_component_set_data_id` (`none` models passing `NULL`). -/
def as_component_set_data_id (cpt : AsComponent) (gcid : Option GlobalId) :
    AsComponent :=
  { cpt with data_id := gcid }

/-- `as_component_set_pkgnames` with the two-slot array
`{bundle_id, NULL}`: the resulting list is `[bundle_id]`, or empty when
`bundle_id` is `NULL`. -/
def as_component_set_pkgnames_bundle (cpt : AsComponent) (bundle_id : Option CStr) :
    AsComponent :=
  { cpt with pkgnames := match bundle_id with | some s => [s] | none => [] }

/-- `as_component_add_bundle`: appends a bundle descriptor. -/
def as_component_add_bundle (cpt : AsComponent) (b : AsBundle) : AsComponent :=
  { cpt with bundles := cpt.bundles ++ [b] }

/-- The private state of an `AscResult` (`AscResultPrivate`): bundle kind,
bundle id, and the three hash tables `cpts` (utf8 → AsComponent ref),
`mdata_hashes` (AsComponent ref → utf8) and `hints` (utf8 → hint array,
hints themselves opaque). -/
structure AscResultPrivate where
  bundle_kind : Nat
  bundle_id : Option CStr
  cpts : List (CStr × Ptr)
  mdata_hashes : List (Ptr × CStr)
  hints : List (CStr × List Nat)
deriving DecidableEq, Repr

/-! ## Operations (`src/compose/asc-result.c`) -/

/-- `asc_result_unit_ignored`: true iff both `cpts` and `hints` are empty. -/
def asc_result_unit_ignored (priv : AscResultPrivate) : Bool :=
  priv.cpts.length == 0 && priv.hints.length == 0

/-- `asc_result_components_count`: size of `cpts`. -/
def asc_result_components_count (priv : AscResultPrivate) : Nat :=
  priv.cpts.length

/-- `asc_result_hints_count`: size of `hints`. -/
def asc_result_hints_count (priv : AscResultPrivate) : Nat :=
  priv.hints.length

/-- `asc_result_get_bundle_kind`. -/
def asc_result_get_bundle_kind (priv : AscResultPrivate) : Nat :=
  priv.bundle_kind

/-- `asc_result_set_bundle_kind`. -/
def asc_result_set_bundle_kind (priv : AscResultPrivate) (kind : Nat) :
    AscResultPrivate :=
  { priv with bundle_kind := kind }

/-- `asc_result_get_bundle_id`. -/
def asc_result_get_bundle_id (priv : AscResultPrivate) : Option CStr :=
  priv.bundle_id

/-- `asc_result_set_bundle_id` (copies the string). -/
def asc_result_set_bundle_id (priv : AscResultPrivate) (id : Option CStr) :
    AscResultPrivate :=
  { priv with bundle_id := id }

/-- `asc_result_get_component`: lookup by component id; returns the stored
component reference or `NULL` (`none`). -/
def asc_result_get_component (priv : AscResultPrivate) (cid : CStr) : Option Ptr :=
  alistLookup priv.cpts cid

/-- `asc_result_get_hints`: lookup of the hint array for a component id. -/
def asc_result_get_hints (priv : AscResultPrivate) (cid : CStr) :
    Option (List Nat) :=
  alistLookup priv.hints cid

/-- Lines 270–276 of `asc_result_update_component_gcid`: the new hash is
`md5 (data)` when `mdata_hashes` has no entry for the component (by
identity), else `md5 (old_hash ++ data)`. -/
def chainHash (priv : AscResultPrivate) (p : Ptr) (data : CStr) : CStr :=
  match alistLookup priv.mdata_hashes p with
  | none => md5hex data
  | some old_hash => md5hex (old_hash ++ data)

/-- `asc_result_update_component_gcid`, lines 253–283:
* empty local id: assign `asc_build_component_global_id (cid, NULL)` onto
  the component and return `TRUE` — no map is touched;
* id not a key of `cpts`: return `FALSE`, nothing mutated;
* otherwise: new hash is `md5 (data)` when `mdata_hashes` has no entry for
  the component (by identity), else `md5 (old_hash ++ data)`; the new hash
  replaces the `mdata_hashes` entry and the GCID built from (cid, hash) is
  assigned onto the component.
Returns (result, new private state, new component state). -/
def asc_result_update_component_gcid (priv : AscResultPrivate) (p : Ptr)
    (cpt : AsComponent) (data : CStr) :
    Bool × AscResultPrivate × AsComponent :=
  let cid := cpt.id
  if as_is_empty cid then
    let gcid := asc_build_component_global_id cid none
    (true, priv, as_component_set_data_id cpt (some gcid))
  else if alistContains priv.cpts cid then
    let hash := chainHash priv p data
    let priv' := { priv with mdata_hashes := alistInsert priv.mdata_hashes p hash }
    let gcid := asc_build_component_global_id cid (some hash)
    (true, priv', as_component_set_data_id cpt (some gcid))
  else
    (false, priv, cpt)

/-- Lines 314–327 of `asc_result_add_component`: the bundle/package tagging
applied to the component before insertion. Web applications, operating
systems and component-removal merges are exempt; otherwise
`bundle_kind == AS_BUNDLE_KIND_PACKAGE` sets the package-name list from
`{bundle_id, NULL}`, and `bundle_kind != AS_BUNDLE_KIND_UNKNOWN &&
bundle_kind >= AS_BUNDLE_KIND_LAST` appends a bundle descriptor built from
(bundle_kind, bundle_id). -/
def asc_result_add_component_tag (priv : AscResultPrivate) (cpt : AsComponent) :
    AsComponent :=
  if cpt.kind ≠ AsComponentKind.webApp ∧
      cpt.kind ≠ AsComponentKind.operatingSystem ∧
      cpt.merge_kind ≠ AsMergeKind.removeComponent then
    if priv.bundle_kind = AS_BUNDLE_KIND_PACKAGE then
      as_component_set_pkgnames_bundle cpt priv.bundle_id
    else if priv.bundle_kind ≠ AS_BUNDLE_KIND_UNKNOWN ∧
        priv.bundle_kind ≥ AS_BUNDLE_KIND_LAST then
      as_component_add_bundle cpt ⟨priv.bundle_kind, priv.bundle_id⟩
    else cpt
  else cpt

/-- `asc_result_add_component`, lines 296–334: fails with the literal
error message when the component id is empty (the `GError` out-parameter is
the `Except.error` value; the state is untouched); otherwise tags the
component (see `asc_result_add_component_tag`), inserts it into `cpts`
keyed by its id, runs `asc_result_update_component_gcid` (whose boolean
result the C code discards) and returns `TRUE` with the new states. -/
def asc_result_add_component (priv : AscResultPrivate) (p : Ptr)
    (cpt : AsComponent) (data : CStr) :
    Except String (AscResultPrivate × AsComponent) :=
  if as_is_empty cpt.id then
    Except.error "Can not add component with empty ID to results set."
  else
    let cpt' := asc_result_add_component_tag priv cpt
    let priv' := { priv with cpts := alistInsert priv.cpts cpt'.id p }
    let r := asc_result_update_component_gcid priv' p cpt' data
    Except.ok (r.2.1, r.2.2)

/-- `asc_result_remove_component`, lines 345–358: removes the entry of
`cpts` keyed by the component's id (the returned boolean is whether the key
was present); if it was, the component's data-id is reset to `NULL`; the
`mdata_hashes` entry of the component (by identity) is removed
unconditionally. -/
def asc_result_remove_component (priv : AscResultPrivate) (p : Ptr)
    (cpt : AsComponent) : Bool × AscResultPrivate × AsComponent :=
  let ret := alistContains priv.cpts cpt.id
  let cpts' := alistRemove priv.cpts cpt.id
  let cpt' := if ret then as_component_set_data_id cpt none else cpt
  (ret,
   { priv with cpts := cpts', mdata_hashes := alistRemove priv.mdata_hashes p },
   cpt')

/-! ## Object lifecycle (`asc_result_new` / `asc_result_init` /
`asc_result_finalize`)

`g_object_new` zero-initializes the private struct and then runs
`asc_result_init`; `asc_result_finalize` runs at destruction. In the
source as written, `asc_result_init` (lines 72–82) frees `bundle_id` and
unrefs the three hash tables, while `asc_result_finalize` (lines 47–70)
resets `bundle_kind` and *creates* the three hash tables. The lifecycle
model below tracks, per field, whether each table is allocated. -/

/-- Allocation state of an `AscResult`'s private data: whether each of the
three hash tables currently exists, plus the scalar fields. -/
structure AscResultAlloc where
  bundle_kind : Nat
  bundle_id_set : Bool
  cpts_alloc : Bool
  mdata_hashes_alloc : Bool
  hints_alloc : Bool
deriving DecidableEq, Repr

/-- The zero-filled private struct produced by `g_object_new` before any
instance-init function runs: `bundle_kind = 0` (`AS_BUNDLE_KIND_UNKNOWN`),
`bundle_id = NULL`, all three table pointers `NULL`. -/
def ascResultZeroed : AscResultAlloc :=
  { bundle_kind := 0, bundle_id_set := false,
    cpts_alloc := false, mdata_hashes_alloc := false, hints_alloc := false }

/-- `asc_result_init` as written in the source (lines 72–82): frees
`bundle_id` and unrefs the three tables — it allocates nothing. -/
def asc_result_init (a : AscResultAlloc) : AscResultAlloc :=
  { a with bundle_id_set := false,
           cpts_alloc := false, mdata_hashes_alloc := false, hints_alloc := false }

/-- `asc_result_finalize` as written in the source (lines 47–70): resets
`bundle_kind` to `AS_BUNDLE_KIND_UNKNOWN` and creates the three tables. -/
def asc_result_finalize (a : AscResultAlloc) : AscResultAlloc :=
  { a with bundle_kind := AS_BUNDLE_KIND_UNKNOWN,
           cpts_alloc := true, mdata_hashes_alloc := true, hints_alloc := true }

/-- `asc_result_new`: `g_object_new` zero-fills the private data and runs
the instance-init function. -/
def asc_result_new : AscResultAlloc :=
  asc_result_init ascResultZeroed

/-! ## Helper lemmas -/

theorem alistLookup_insert_self {κ α : Type} [DecidableEq κ]
    (m : List (κ × α)) (k : κ) (v : α) :
    alistLookup (alistInsert m k v) k = some v := by
  induction m with
  | nil => simp [alistInsert, alistLookup]
  | cons hd tl ih =>
      obtain ⟨k', v'⟩ := hd
      by_cases h : k' = k
      · simp [alistInsert, alistLookup, h]
      · simp [alistInsert, alistLookup, h, ih]

theorem alistContains_insert_self {κ α : Type} [DecidableEq κ]
    (m : List (κ × α)) (k : κ) (v : α) :
    alistContains (alistInsert m k v) k = true := by
  induction m with
  | nil => simp [alistInsert, alistContains]
  | cons hd tl ih =>
      obtain ⟨k', v'⟩ := hd
      by_cases h : k' = k
      · simp [alistInsert, alistContains, h]
      · simp [alistInsert, alistContains, h, ih]

theorem length_alistInsert {κ α : Type} [DecidableEq κ]
    (m : List (κ × α)) (k : κ) (v : α) :
    (alistInsert m k v).length =
      if alistContains m k then m.length else m.length + 1 := by
  induction m with
  | nil => simp [alistInsert, alistContains]
  | cons hd tl ih =>
      obtain ⟨k', v'⟩ := hd
      by_cases h : k' = k
      · simp [alistInsert, alistContains, h]
      · simp only [alistInsert, alistContains, if_neg h, List.length_cons, ih]
        by_cases h2 : alistContains tl k
        · simp [h2]
        · simp [h2]

theorem alistRemove_of_not_contains {κ α : Type} [DecidableEq κ]
    (m : List (κ × α)) (k : κ) (h : alistContains m k = false) :
    alistRemove m k = m := by
  induction m with
  | nil => simp [alistRemove]
  | cons hd tl ih =>
      obtain ⟨k', v'⟩ := hd
      by_cases hk : k' = k
      · simp [alistContains, hk] at h
      · simp only [alistContains, if_neg hk] at h
        simp [alistRemove, hk, ih h]

theorem add_component_tag_id (priv : AscResultPrivate) (cpt : AsComponent) :
    (asc_result_add_component_tag priv cpt).id = cpt.id := by
  unfold asc_result_add_component_tag
  split
  · split
    · simp [as_component_set_pkgnames_bundle]
    · split
      · simp [as_component_add_bundle]
      · rfl
  · rfl

theorem add_component_tag_data_id (priv : AscResultPrivate) (cpt : AsComponent) :
    (asc_result_add_component_tag priv cpt).data_id = cpt.data_id := by
  unfold asc_result_add_component_tag
  split
  · split
    · simp [as_component_set_pkgnames_bundle]
    · split
      · simp [as_component_add_bundle]
      · rfl
  · rfl

/-- Unfolding of `asc_result_update_component_gcid` in the chaining case:
the component is registered under a non-empty id. -/
theorem update_gcid_chain_eq (priv : AscResultPrivate) (p : Ptr)
    (cpt : AsComponent) (data : CStr)
    (h1 : as_is_empty cpt.id = false)
    (h2 : alistContains priv.cpts cpt.id = true) :
    asc_result_update_component_gcid priv p cpt data =
      (true,
       { priv with
           mdata_hashes := alistInsert priv.mdata_hashes p (chainHash priv p data) },
       as_component_set_data_id cpt
         (some (asc_build_component_global_id cpt.id (some (chainHash priv p data))))) := by
  unfold asc_result_update_component_gcid
  simp [h1, h2]

/-- Unfolding of `asc_result_add_component` in the success case: the
component's id is non-empty. -/
theorem add_component_ok_eq (priv : AscResultPrivate) (p : Ptr)
    (cpt : AsComponent) (data : CStr) (h : as_is_empty cpt.id = false) :
    asc_result_add_component priv p cpt data =
      Except.ok
        ({ priv with
             cpts := alistInsert priv.cpts cpt.id p,
             mdata_hashes := alistInsert priv.mdata_hashes p
               (chainHash priv p data) },
         as_component_set_data_id (asc_result_add_component_tag priv cpt)
           (some (asc_build_component_global_id cpt.id
             (some (chainHash priv p data))))) := by
  have htag := add_component_tag_id priv cpt
  simp only [asc_result_add_component, h, Bool.false_eq_true, if_false]
  rw [update_gcid_chain_eq _ _ _ _ (by rw [htag]; exact h)
        (by rw [htag]; exact alistContains_insert_self _ _ _)]
  simp [htag, chainHash]

/-! ## Concrete fixtures used by witnesses and counterexamples -/

/-- A result state with well-formed empty tables, no bundle kind and no
bundle id (the state the spec intends right after creation). -/
def emptyResult : AscResultPrivate :=
  { bundle_kind := AS_BUNDLE_KIND_UNKNOWN, bundle_id := none,
    cpts := [], mdata_hashes := [], hints := [] }

/-- A plain component with local id "org.app". -/
def cptOrgApp : AsComponent :=
  { id := strBytes "org.app", kind := AsComponentKind.generic,
    merge_kind := AsMergeKind.noMerge, data_id := none,
    pkgnames := [], bundles := [] }

/-- A component with an empty (`NULL`/`""`) local id. -/
def cptNoId : AsComponent :=
  { id := [], kind := AsComponentKind.generic,
    merge_kind := AsMergeKind.noMerge, data_id := none,
    pkgnames := [], bundles := [] }

/-! ## Claims -/

/-- C6: adding a component whose local id is empty or missing fails with
the descriptive invalid-argument message — modelled as the `Except.error`
carrying the literal `GError` message, with no successor state produced, so
the caller's `AscResultPrivate` (and hence `componentCount ()`) is
untouched — and a component with a non-empty id never fails: the empty-id
case is the only error return of `asc_result_add_component`. -/
theorem C6_add_component_empty_id_only_failure (priv : AscResultPrivate)
    (p : Ptr) (cpt : AsComponent) (data : CStr) :
    (as_is_empty cpt.id = true →
      asc_result_add_component priv p cpt data =
        Except.error "Can not add component with empty ID to results set.") ∧
    (as_is_empty cpt.id = false →
      ∃ out, asc_result_add_component priv p cpt data = Except.ok out) := by
  constructor
  · intro h
    simp [asc_result_add_component, h]
  · intro h
    exact ⟨_, add_component_ok_eq priv p cpt data h⟩

/-- Witness for C6 at concrete inputs: the empty-id component is rejected
with the message, and `cptOrgApp` is accepted. -/
theorem C6_witness :
    asc_result_add_component emptyResult 0 cptNoId (strBytes "d") =
      Except.error "Can not add component with empty ID to results set." ∧
    ∃ out, asc_result_add_component emptyResult 0 cptOrgApp (strBytes "d") =
      Except.ok out :=
  ⟨(C6_add_component_empty_id_only_failure emptyResult 0 cptNoId
      (strBytes "d")).1 (by decide),
   (C6_add_component_empty_id_only_failure emptyResult 0 cptOrgApp
      (strBytes "d")).2 (by decide)⟩

/-- C7: the non-chaining paths of `asc_result_update_component_gcid`.
With an empty local id the call assigns the GCID built from the empty id
and no hash onto the component and returns `TRUE`, leaving every map of
the result set untouched (the returned state is the input state) and
without the component having to be registered in `cpts`; with a non-empty
id that is not a key of `cpts` the call returns `FALSE` and mutates
neither the result set nor the component. -/
theorem C7_update_gcid_nonchaining_paths (priv : AscResultPrivate) (p : Ptr)
    (cpt : AsComponent) (data : CStr) :
    (as_is_empty cpt.id = true →
      asc_result_update_component_gcid priv p cpt data =
        (true, priv,
         as_component_set_data_id cpt
           (some (asc_build_component_global_id cpt.id none)))) ∧
    (as_is_empty cpt.id = false → alistContains priv.cpts cpt.id = false →
      asc_result_update_component_gcid priv p cpt data = (false, priv, cpt)) := by
  constructor
  · intro h
    simp [asc_result_update_component_gcid, h]
  · intro h1 h2
    simp [asc_result_update_component_gcid, h1, h2]

/-- Witness for C7 at concrete inputs: an empty-id component gets a
hashless GCID with success on an empty result set (where it is not
registered), and `cptOrgApp`, not registered either, fails with no
mutation. -/
theorem C7_witness :
    asc_result_update_component_gcid emptyResult 0 cptNoId (strBytes "d") =
      (true, emptyResult,
       as_component_set_data_id cptNoId
         (some (asc_build_component_global_id cptNoId.id none))) ∧
    asc_result_update_component_gcid emptyResult 0 cptOrgApp (strBytes "d") =
      (false, emptyResult, cptOrgApp) :=
  ⟨(C7_update_gcid_nonchaining_paths emptyResult 0 cptNoId
      (strBytes "d")).1 (by decide),
   (C7_update_gcid_nonchaining_paths emptyResult 0 cptOrgApp
      (strBytes "d")).2 (by decide) (by decide)⟩

/-- C8: storage correctness of `asc_result_add_component`. Adding a
component with a non-empty id succeeds; afterwards
`asc_result_get_component` at that id returns exactly the inserted
component (reference `p`), and the component count grows by one when the
id was absent and is unchanged when the id was already present (the
insert replaces the earlier entry). -/
theorem C8_add_component_storage (priv : AscResultPrivate) (p : Ptr)
    (cpt : AsComponent) (data : CStr) (h : as_is_empty cpt.id = false) :
    ∃ priv' cpt',
      asc_result_add_component priv p cpt data = Except.ok (priv', cpt') ∧
      asc_result_get_component priv' cpt.id = some p ∧
      asc_result_components_count priv' =
        (if alistContains priv.cpts cpt.id then
          asc_result_components_count priv
         else asc_result_components_count priv + 1) := by
  refine ⟨_, _, add_component_ok_eq priv p cpt data h, ?_, ?_⟩
  · simp [asc_result_get_component, alistLookup_insert_self]
  · simp [asc_result_components_count, length_alistInsert]

/-- Witness for C8: adding `cptOrgApp` to an empty result set stores it
under "org.app" and brings the count to 1. -/
theorem C8_witness :
    ∃ priv' cpt',
      asc_result_add_component emptyResult 7 cptOrgApp (strBytes "d") =
        Except.ok (priv', cpt') ∧
      asc_result_get_component priv' cptOrgApp.id = some 7 ∧
      asc_result_components_count priv' =
        (if alistContains emptyResult.cpts cptOrgApp.id then
          asc_result_components_count emptyResult
         else asc_result_components_count emptyResult + 1) :=
  C8_add_component_storage emptyResult 7 cptOrgApp (strBytes "d") (by decide)

/-- C9: the `asc_result_update_component_gcid` call made at the end of a
successful `asc_result_add_component` — on the state into which the tagged
component was just inserted under its (non-empty) id — always returns
`TRUE`: its not-found branch is unreachable there, because the id was
inserted into `cpts` immediately before. -/
theorem C9_internal_gcid_update_succeeds (priv : AscResultPrivate) (p : Ptr)
    (cpt : AsComponent) (data : CStr) (h : as_is_empty cpt.id = false) :
    (asc_result_update_component_gcid
      { priv with
          cpts := alistInsert priv.cpts (asc_result_add_component_tag priv cpt).id p }
      p (asc_result_add_component_tag priv cpt) data).1 = true := by
  rw [update_gcid_chain_eq _ _ _ _ (by rw [add_component_tag_id]; exact h)
        (by simp [alistContains_insert_self])]

/-- Witness for C9 at a concrete input. -/
theorem C9_witness :
    (asc_result_update_component_gcid
      { emptyResult with
          cpts := alistInsert emptyResult.cpts
            (asc_result_add_component_tag emptyResult cptOrgApp).id 3 }
      3 (asc_result_add_component_tag emptyResult cptOrgApp)
      (strBytes "d")).1 = true :=
  C9_internal_gcid_update_succeeds emptyResult 3 cptOrgApp (strBytes "d")
    (by decide)

theorem update_gcid_cpt_frame (priv : AscResultPrivate) (p : Ptr)
    (cpt : AsComponent) (data : CStr) :
    (asc_result_update_component_gcid priv p cpt data).2.2.pkgnames =
        cpt.pkgnames ∧
    (asc_result_update_component_gcid priv p cpt data).2.2.bundles =
        cpt.bundles := by
  by_cases h1 : as_is_empty cpt.id = true
  · simp [asc_result_update_component_gcid, h1, as_component_set_data_id]
  · by_cases h2 : alistContains priv.cpts cpt.id = true
    · simp [asc_result_update_component_gcid, h1, h2, as_component_set_data_id]
    · simp [asc_result_update_component_gcid, h1, h2]

/-- C3: package tagging and exemptions of `asc_result_add_component`.
When the result set has `bundle_kind = AS_BUNDLE_KIND_PACKAGE` and a
bundle id, adding a component that is not a web application, not an
operating system and whose merge kind is not remove-component sets the
component's package-name list to exactly the singleton bundle id,
overwriting whatever list it had before; and a component that is a web
application or an operating system, or whose merge kind is
remove-component, keeps its package-name list and its bundle list
unchanged by the add, whatever the result set's bundle kind. -/
theorem C3_package_tagging_and_exemptions (priv : AscResultPrivate) (p : Ptr)
    (cpt : AsComponent) (data : CStr) (b : CStr) :
    (as_is_empty cpt.id = false →
     cpt.kind ≠ AsComponentKind.webApp →
     cpt.kind ≠ AsComponentKind.operatingSystem →
     cpt.merge_kind ≠ AsMergeKind.removeComponent →
     priv.bundle_kind = AS_BUNDLE_KIND_PACKAGE →
     priv.bundle_id = some b →
      ∃ priv' cpt',
        asc_result_add_component priv p cpt data = Except.ok (priv', cpt') ∧
        cpt'.pkgnames = [b]) ∧
    ((cpt.kind = AsComponentKind.webApp ∨
      cpt.kind = AsComponentKind.operatingSystem ∨
      cpt.merge_kind = AsMergeKind.removeComponent) →
     as_is_empty cpt.id = false →
      ∃ priv' cpt',
        asc_result_add_component priv p cpt data = Except.ok (priv', cpt') ∧
        cpt'.pkgnames = cpt.pkgnames ∧ cpt'.bundles = cpt.bundles) := by
  constructor
  · intro h hk1 hk2 hm hbk hbi
    refine ⟨_, _, add_component_ok_eq priv p cpt data h, ?_⟩
    simp only [as_component_set_data_id]
    show (asc_result_add_component_tag priv cpt).pkgnames = [b]
    unfold asc_result_add_component_tag
    rw [if_pos ⟨hk1, hk2, hm⟩, if_pos hbk]
    simp [as_component_set_pkgnames_bundle, hbi]
  · intro hexempt h
    refine ⟨_, _, add_component_ok_eq priv p cpt data h, ?_, ?_⟩
    all_goals {
      simp only [as_component_set_data_id]
      unfold asc_result_add_component_tag
      rw [if_neg (by tauto)]
    }

/-- Witness for C3: with `bundle_kind = package` and bundle id "foo",
adding `cptOrgApp` yields package-name list `["foo"]`, and adding the same
component as a web application leaves its (empty) package-name and bundle
lists unchanged. -/
theorem C3_witness :
    (∃ priv' cpt',
      asc_result_add_component
        { emptyResult with bundle_kind := AS_BUNDLE_KIND_PACKAGE,
                           bundle_id := some (strBytes "foo") }
        0 cptOrgApp (strBytes "d") = Except.ok (priv', cpt') ∧
      cpt'.pkgnames = [strBytes "foo"]) ∧
    (∃ priv' cpt',
      asc_result_add_component
        { emptyResult with bundle_kind := AS_BUNDLE_KIND_PACKAGE,
                           bundle_id := some (strBytes "foo") }
        0 { cptOrgApp with kind := AsComponentKind.webApp } (strBytes "d") =
          Except.ok (priv', cpt') ∧
      cpt'.pkgnames = { cptOrgApp with kind := AsComponentKind.webApp }.pkgnames ∧
      cpt'.bundles = { cptOrgApp with kind := AsComponentKind.webApp }.bundles) :=
  ⟨(C3_package_tagging_and_exemptions _ 0 cptOrgApp (strBytes "d")
      (strBytes "foo")).1 (by decide) (by decide) (by decide) (by decide)
      rfl rfl,
   (C3_package_tagging_and_exemptions _ 0 _ (strBytes "d")
      (strBytes "foo")).2 (Or.inl rfl) (by decide)⟩

/-- C1 as stated is false: with `bundle_kind = AS_BUNDLE_KIND_FLATPAK` — a
concrete kind that is neither unknown, nor package, nor the sentinel — and
bundle id "foo", adding the plain component `cptOrgApp` leaves its bundle
list empty; no bundle descriptor built from (flatpak, "foo") is appended,
because line 321 tests `bundle_kind >= AS_BUNDLE_KIND_LAST`, which is
false for every concrete kind below the sentinel. -/
theorem C1_counterexample :
    (asc_result_add_component
        { emptyResult with bundle_kind := AS_BUNDLE_KIND_FLATPAK,
                           bundle_id := some (strBytes "foo") }
        0 cptOrgApp (strBytes "d")).toOption.map
      (fun x => x.2.bundles) = some [] ∧
    some ([] : List AsBundle) ≠
      some [{ kind := AS_BUNDLE_KIND_FLATPAK, id := some (strBytes "foo") }] := by
  constructor
  · rfl
  · simp

/-- C1 amended: for a component that is not a web application, not an
operating system and whose merge kind is not remove-component, added under
a result set whose bundle kind is not package, a bundle descriptor built
from (bundle kind, bundle id) is appended to the component's bundle list
exactly when the bundle kind is non-unknown and at or above the sentinel
`AS_BUNDLE_KIND_LAST` ("kind count") value; for the unknown kind and for
every concrete kind below the sentinel (flatpak, snap, cabinet, ...) no
bundle association is added. (The source's condition at line 321 is
`>= AS_BUNDLE_KIND_LAST`, so the table in the claim is inverted: concrete
sub-sentinel kinds attach nothing, and only out-of-range kinds at or above
the sentinel attach a descriptor.) -/
theorem C1_amended_bundle_attachment (priv : AscResultPrivate) (p : Ptr)
    (cpt : AsComponent) (data : CStr)
    (h : as_is_empty cpt.id = false)
    (hk1 : cpt.kind ≠ AsComponentKind.webApp)
    (hk2 : cpt.kind ≠ AsComponentKind.operatingSystem)
    (hm : cpt.merge_kind ≠ AsMergeKind.removeComponent)
    (hbk : priv.bundle_kind ≠ AS_BUNDLE_KIND_PACKAGE) :
    ∃ priv' cpt',
      asc_result_add_component priv p cpt data = Except.ok (priv', cpt') ∧
      cpt'.bundles =
        (if priv.bundle_kind ≠ AS_BUNDLE_KIND_UNKNOWN ∧
            AS_BUNDLE_KIND_LAST ≤ priv.bundle_kind then
          cpt.bundles ++ [{ kind := priv.bundle_kind, id := priv.bundle_id }]
         else cpt.bundles) := by
  refine ⟨_, _, add_component_ok_eq priv p cpt data h, ?_⟩
  simp only [as_component_set_data_id]
  show (asc_result_add_component_tag priv cpt).bundles = _
  unfold asc_result_add_component_tag
  rw [if_pos ⟨hk1, hk2, hm⟩, if_neg hbk]
  by_cases hs : priv.bundle_kind ≠ AS_BUNDLE_KIND_UNKNOWN ∧
      AS_BUNDLE_KIND_LAST ≤ priv.bundle_kind
  · rw [if_pos hs, if_pos hs]
    simp [as_component_add_bundle]
  · rw [if_neg hs, if_neg hs]

/-- A result state whose bundle kind 7 lies at or above the sentinel
`AS_BUNDLE_KIND_LAST`, with bundle id "foo". -/
def sentinelFooResult : AscResultPrivate :=
  { emptyResult with bundle_kind := 7, bundle_id := some (strBytes "foo") }

/-- Witness for C1's amended theorem: with the out-of-range bundle kind 7
(at or above the sentinel) and bundle id "foo", the descriptor (7, "foo")
is appended to `cptOrgApp`'s bundle list. -/
theorem C1_amended_witness :
    ∃ priv' cpt',
      asc_result_add_component sentinelFooResult 0 cptOrgApp (strBytes "d") =
        Except.ok (priv', cpt') ∧
      cpt'.bundles =
        (if sentinelFooResult.bundle_kind ≠ AS_BUNDLE_KIND_UNKNOWN ∧
            AS_BUNDLE_KIND_LAST ≤ sentinelFooResult.bundle_kind then
          cptOrgApp.bundles ++
            [{ kind := sentinelFooResult.bundle_kind,
               id := sentinelFooResult.bundle_id }]
         else cptOrgApp.bundles) :=
  C1_amended_bundle_attachment sentinelFooResult 0 cptOrgApp (strBytes "d")
    (by decide) (by decide) (by decide) (by decide) (by decide)

/-- A plain component with local id "a" (used as the field state of two
distinct component objects, pointers 1 and 2, in the C5 scenario). -/
def cptIdA : AsComponent :=
  { id := strBytes "a", kind := AsComponentKind.generic,
    merge_kind := AsMergeKind.noMerge, data_id := none,
    pkgnames := [], bundles := [] }

/-- C5 scenario, step 1: add component object 1 (id "a") with data "d1". -/
def c5state1 : AscResultPrivate :=
  ((asc_result_add_component emptyResult 1 cptIdA
      (strBytes "d1")).toOption.getD (emptyResult, cptIdA)).1

/-- C5 scenario, step 2: add component object 2, also with id "a" (it
replaces object 1 in `cpts`; both objects now have `mdata_hashes`
entries). -/
def c5state2 : AscResultPrivate :=
  ((asc_result_add_component c5state1 2 cptIdA
      (strBytes "d2")).toOption.getD (emptyResult, cptIdA)).1

/-- C5 scenario, step 3: remove component object 2 — it holds the id "a"
entry, so this succeeds and leaves object 1's stale `mdata_hashes` entry
behind. -/
def c5remove1 : Bool × AscResultPrivate × AsComponent :=
  asc_result_remove_component c5state2 2 cptIdA

/-- C5 scenario, step 4: remove component object 1 — its id is no longer a
key of `cpts`, so the removal reports failure. -/
def c5remove2 : Bool × AscResultPrivate × AsComponent :=
  asc_result_remove_component c5remove1.2.1 1 cptIdA

/-- C5 as stated is false: in the scenario above, the final
`asc_result_remove_component` call returns `FALSE`, yet `mdata_hashes` is
not left unchanged — object 1's stale entry (holding `md5 ("d1")`) is
removed by the unconditional `g_hash_table_remove` at line 355, taking the
map from a one-entry state to empty. -/
theorem C5_counterexample :
    c5remove2.1 = false ∧
    c5remove1.2.1.mdata_hashes = [(1, md5hex (strBytes "d1"))] ∧
    c5remove2.2.1.mdata_hashes = [] ∧
    ([] : List (Ptr × CStr)) ≠ [(1, md5hex (strBytes "d1"))] := by
  refine ⟨rfl, rfl, rfl, by simp⟩

/-- C5 amended: `asc_result_remove_component` returns `TRUE` exactly when
a component was stored under the component's local id; it always removes
that id's entry from `cpts` and — unconditionally, even when it returns
`FALSE` — removes the component's (identity-keyed) entry from
`mdata_hashes`; hints are never removed; on `TRUE` the component's
assigned GCID is cleared back to no identity, and on `FALSE` the
component itself and the `cpts` map are untouched. -/
theorem C5_amended_remove_component (priv : AscResultPrivate) (p : Ptr)
    (cpt : AsComponent) :
    ((asc_result_remove_component priv p cpt).1 = true ↔
        alistContains priv.cpts cpt.id = true) ∧
    (asc_result_remove_component priv p cpt).2.1.cpts =
        alistRemove priv.cpts cpt.id ∧
    (asc_result_remove_component priv p cpt).2.1.mdata_hashes =
        alistRemove priv.mdata_hashes p ∧
    (asc_result_remove_component priv p cpt).2.1.hints = priv.hints ∧
    ((asc_result_remove_component priv p cpt).1 = true →
      (asc_result_remove_component priv p cpt).2.2.data_id = none) ∧
    ((asc_result_remove_component priv p cpt).1 = false →
      (asc_result_remove_component priv p cpt).2.1.cpts = priv.cpts ∧
      (asc_result_remove_component priv p cpt).2.2 = cpt) := by
  refine ⟨Iff.rfl, rfl, rfl, rfl, ?_, ?_⟩
  · intro h
    simp only [asc_result_remove_component] at h ⊢
    simp [h, as_component_set_data_id]
  · intro h
    simp only [asc_result_remove_component] at h ⊢
    constructor
    · exact alistRemove_of_not_contains _ _ h
    · simp [h]

/-- Witness for C5's amended theorem, instantiated on the C5 scenario's
second state (two objects with id "a", object 2 holding the entry). -/
theorem C5_amended_witness :
    ((asc_result_remove_component c5state2 2 cptIdA).1 = true ↔
        alistContains c5state2.cpts cptIdA.id = true) ∧
    (asc_result_remove_component c5state2 2 cptIdA).2.1.cpts =
        alistRemove c5state2.cpts cptIdA.id ∧
    (asc_result_remove_component c5state2 2 cptIdA).2.1.mdata_hashes =
        alistRemove c5state2.mdata_hashes 2 ∧
    (asc_result_remove_component c5state2 2 cptIdA).2.1.hints =
        c5state2.hints ∧
    ((asc_result_remove_component c5state2 2 cptIdA).1 = true →
      (asc_result_remove_component c5state2 2 cptIdA).2.2.data_id = none) ∧
    ((asc_result_remove_component c5state2 2 cptIdA).1 = false →
      (asc_result_remove_component c5state2 2 cptIdA).2.1.cpts =
        c5state2.cpts ∧
      (asc_result_remove_component c5state2 2 cptIdA).2.2 = cptIdA) :=
  C5_amended_remove_component c5state2 2 cptIdA

/-- C4: the claim describes the intended GObject lifecycle (instance-init
allocates, finalize frees), but in the source the two bodies are swapped:
`asc_result_init` frees/unrefs the three hash tables and `asc_result_finalize`
creates them. Hence immediately after `asc_result_new` none of the
`components`/`hashState`/`hints` tables exists (so `componentCount ()`,
`hintCount ()` and `isUnitIgnored ()` would all dereference `NULL`
tables); only `bundle_kind = unknown` and the absent `bundle_id` hold, by
zero-initialization. It is the finalizer that creates the three maps. -/
theorem C4_fresh_result_tables_not_created :
    asc_result_new.cpts_alloc = false ∧
    asc_result_new.mdata_hashes_alloc = false ∧
    asc_result_new.hints_alloc = false ∧
    asc_result_new.bundle_kind = AS_BUNDLE_KIND_UNKNOWN ∧
    asc_result_new.bundle_id_set = false ∧
    (asc_result_finalize asc_result_new).cpts_alloc = true ∧
    (asc_result_finalize asc_result_new).mdata_hashes_alloc = true ∧
    (asc_result_finalize asc_result_new).hints_alloc = true := by
  decide

/-- A plain component with local id "x" (the component `X` of the C2
chaining scenario). -/
def cptIdX : AsComponent :=
  { id := strBytes "x", kind := AsComponentKind.generic,
    merge_kind := AsMergeKind.noMerge, data_id := none,
    pkgnames := [], bundles := [] }

/-- C2 scenario, step 1: add `X` with data "a" (state and mutated
component). -/
def c2afterAdd : AscResultPrivate × AsComponent :=
  (asc_result_add_component emptyResult 0 cptIdX
      (strBytes "a")).toOption.getD (emptyResult, cptIdX)

/-- C2 scenario, step 2: update `X`'s GCID with data "b". -/
def c2afterUpdate : Bool × AscResultPrivate × AsComponent :=
  asc_result_update_component_gcid c2afterAdd.1 0 c2afterAdd.2 (strBytes "b")

/-- C2: GCID hash chaining. For every component registered under a
non-empty id, `asc_result_update_component_gcid` succeeds and stores
`chainHash` as the new hash — `md5 (data)` on the first call (no prior
entry) and `md5 (H ++ data)` when a prior hash `H` is stored. Hence in
the concrete scenario add(X, "a") followed by update(X, "b"), the stored
hash and the hash inside X's assigned GCID equal
`md5 (md5 ("a") ++ "b")`, which differs from the single-update hash
`md5 ("ab")`: chaining is not concatenation-then-single-hash. -/
theorem C2_gcid_hash_chaining :
    (∀ (priv : AscResultPrivate) (p : Ptr) (cpt : AsComponent) (data : CStr),
      as_is_empty cpt.id = false →
      alistContains priv.cpts cpt.id = true →
      (asc_result_update_component_gcid priv p cpt data).1 = true ∧
      alistLookup
        (asc_result_update_component_gcid priv p cpt data).2.1.mdata_hashes p =
        some (chainHash priv p data)) ∧
    alistLookup c2afterUpdate.2.1.mdata_hashes 0 =
      some (md5hex (md5hex (strBytes "a") ++ strBytes "b")) ∧
    c2afterUpdate.2.2.data_id =
      some (asc_build_component_global_id (strBytes "x")
        (some (md5hex (md5hex (strBytes "a") ++ strBytes "b")))) ∧
    md5hex (md5hex (strBytes "a") ++ strBytes "b") ≠ md5hex (strBytes "ab") := by
  refine ⟨?_, rfl, rfl, by decide⟩
  intro priv p cpt data h1 h2
  rw [update_gcid_chain_eq priv p cpt data h1 h2]
  exact ⟨rfl, by simp [alistLookup_insert_self]⟩

/-- A result set in which component reference 0 is registered under the
id "x" with no hash yet. -/
def xRegisteredResult : AscResultPrivate :=
  { emptyResult with cpts := [(strBytes "x", 0)] }

/-- Witness for C2's universally quantified part at a concrete input: a
first GCID update for the registered component stores `chainHash`, i.e.
`md5 ("b")`. -/
theorem C2_witness :
    (asc_result_update_component_gcid xRegisteredResult 0 cptIdX
        (strBytes "b")).1 = true ∧
    alistLookup
      (asc_result_update_component_gcid xRegisteredResult 0 cptIdX
          (strBytes "b")).2.1.mdata_hashes 0 =
      some (chainHash xRegisteredResult 0 (strBytes "b")) :=
  C2_gcid_hash_chaining.1 xRegisteredResult 0 cptIdX (strBytes "b")
    (by decide) (by decide)

/-- C10: re-adding a component does not reset its hash chain. Starting
from any state with no stored hash for the component's reference, a first
`asc_result_add_component` with data `d1` and a second with data `d2` both
succeed, and afterwards the stored hash and the hash inside the assigned
GCID equal `md5 (md5 (d1) ++ d2)` — the chain survives the re-insertion,
which replaces the `cpts` entry but never clears or reseeds the
`mdata_hashes` entry — and not `md5 (d2)`, as witnessed concretely at
`d1 = "a"`, `d2 = "b"`. -/
theorem C10_readd_does_not_reset_hash_chain :
    (∀ (priv : AscResultPrivate) (p : Ptr) (cpt : AsComponent) (d1 d2 : CStr),
      as_is_empty cpt.id = false →
      alistLookup priv.mdata_hashes p = none →
      ∃ priv1 cpt1 priv2 cpt2,
        asc_result_add_component priv p cpt d1 = Except.ok (priv1, cpt1) ∧
        asc_result_add_component priv1 p cpt1 d2 = Except.ok (priv2, cpt2) ∧
        alistLookup priv2.mdata_hashes p = some (md5hex (md5hex d1 ++ d2)) ∧
        cpt2.data_id = some (asc_build_component_global_id cpt.id
          (some (md5hex (md5hex d1 ++ d2))))) ∧
    md5hex (md5hex (strBytes "a") ++ strBytes "b") ≠ md5hex (strBytes "b") := by
  constructor
  · intro priv p cpt d1 d2 h h0
    refine ⟨_, _, _, _, add_component_ok_eq priv p cpt d1 h,
      add_component_ok_eq _ p _ d2
        (by simp [as_component_set_data_id, add_component_tag_id, h]), ?_, ?_⟩
    · simp [chainHash, alistLookup_insert_self, h0]
    · simp [as_component_set_data_id, add_component_tag_id, chainHash,
        alistLookup_insert_self, h0, asc_build_component_global_id]
  · decide

/-- Witness for C10's universally quantified part at the concrete inputs
`d1 = "a"`, `d2 = "b"` on an empty result set. -/
theorem C10_witness :
    ∃ priv1 cpt1 priv2 cpt2,
      asc_result_add_component emptyResult 0 cptIdX (strBytes "a") =
        Except.ok (priv1, cpt1) ∧
      asc_result_add_component priv1 0 cpt1 (strBytes "b") =
        Except.ok (priv2, cpt2) ∧
      alistLookup priv2.mdata_hashes 0 =
        some (md5hex (md5hex (strBytes "a") ++ strBytes "b")) ∧
      cpt2.data_id = some (asc_build_component_global_id cptIdX.id
        (some (md5hex (md5hex (strBytes "a") ++ strBytes "b")))) :=
  C10_readd_does_not_reset_hash_chain.1 emptyResult 0 cptIdX (strBytes "a")
    (strBytes "b") (by decide) rfl
